import Mathlib

/-!
Verification development for the Intel Media SDK hardware video decoder
(`src/hwenc_msdk/msdk_video_decoder.cpp`).  The decoder state machine —
bitstream accumulation, surface pool acquisition, the busy-retry submit
loop, synchronization and delivery — is shallowly embedded below; the
opaque hardware engine is a parameter (an oracle giving the status,
completion token and consumed byte count of each submission attempt).
Memory is modelled flat (an unbounded byte map plus the tracked size of
the current allocation), so out-of-allocation accesses are expressible
as arithmetic facts about the tracked size.
-/

namespace Msdk

/-! ## Status constants (mfxdefs.h / video_error_codes.h) -/

def MFX_ERR_NONE : Int := 0
def MFX_ERR_UNSUPPORTED : Int := -3
def MFX_ERR_MORE_DATA : Int := -10
def MFX_ERR_DEVICE_FAILED : Int := -17
def MFX_WRN_DEVICE_BUSY : Int := 2

def WEBRTC_VIDEO_CODEC_OK : Int := 0
def WEBRTC_VIDEO_CODEC_ERROR : Int := -1
def WEBRTC_VIDEO_CODEC_ERR_PARAMETER : Int := -4
def WEBRTC_VIDEO_CODEC_UNINITIALIZED : Int := -7

/-! ## Bitstream accumulator (`mfxBitstream` + `bitstream_buffer_`)

`mem` is the flat byte memory reachable through `bitstream_.Data`;
`bufSize` is the actual size of the backing `std::vector`
(`bitstream_buffer_.size()`); `MaxLength`, `DataOffset`, `DataLength`
are the homonymous `mfxBitstream` fields. -/

structure Bitstream where
  mem : Nat → Nat
  bufSize : Nat
  MaxLength : Nat
  DataOffset : Nat
  DataLength : Nat

/-- The input chunk (`webrtc::EncodedImage`): `isNull` models
`data() == nullptr`, `byteAt` the bytes behind the data pointer (flat,
like `Bitstream.mem`), `size` the value of `size()`, `timestamp` the
value of `Timestamp()`. -/
structure EncodedImage where
  isNull : Bool
  size : Nat
  byteAt : Nat → Nat
  timestamp : Nat

/-- The byte sequence of a chunk: its first `size` pointed-to bytes. -/
def imgBytes (img : EncodedImage) : List Nat :=
  (List.range img.size).map img.byteAt

/-- The growth / compaction / append step of `Decode`
(msdk_video_decoder.cpp lines 170-191):

  if (MaxLength < DataLength + size) { buffer.resize(DataLength + size);
    MaxLength = DataLength + buffer.size(); Data = buffer.data(); }
  memmove(Data, Data + DataOffset, DataLength);
  DataOffset = 0;
  memcpy(Data + DataLength, data, size);
  DataLength += size;

Reallocation keeps the flat memory contents (realloc-in-place view);
`bufSize` tracks the allocation of the vector. -/
def appendStep (bs : Bitstream) (img : EncodedImage) : Bitstream :=
  let sz := img.size
  let bs1 :=
    if bs.MaxLength < bs.DataLength + sz then
      { bs with bufSize := bs.DataLength + sz,
                MaxLength := bs.DataLength + (bs.DataLength + sz) }
    else bs
  let m1 : Nat → Nat := fun i =>
    if i < bs1.DataLength then bs1.mem (bs1.DataOffset + i) else bs1.mem i
  let m2 : Nat → Nat := fun i =>
    if bs1.DataLength ≤ i ∧ i < bs1.DataLength + sz then
      img.byteAt (i - bs1.DataLength)
    else m1 i
  { bs1 with mem := m2, DataOffset := 0, DataLength := bs1.DataLength + sz }

/-- The engine advancing `DataOffset` / shrinking `DataLength` by the
bytes it consumed during `DecodeFrameAsync` (through the `&bitstream_`
pointer). -/
def consume (bs : Bitstream) (c : Nat) : Bitstream :=
  { bs with DataOffset := bs.DataOffset + c, DataLength := bs.DataLength - c }

/-- The bitstream view handed to the engine: the `DataLength` bytes
starting at `Data + DataOffset`. -/
def view (bs : Bitstream) : List Nat :=
  (List.range bs.DataLength).map (fun i => bs.mem (bs.DataOffset + i))

/-- Initial bitstream state built by `InitMediaSDK` (lines 289-293):
a 1 MiB zeroed buffer, `MaxLength = buffer.size()`, offset/length 0. -/
def initBitstream : Bitstream :=
  { mem := fun _ => 0, bufSize := 1024 * 1024, MaxLength := 1024 * 1024,
    DataOffset := 0, DataLength := 0 }

/-! ## Surfaces, engine oracle, events -/

/-- A pool surface; `Locked` is `Data.Locked`, `id` identifies the slot. -/
structure mfxFrameSurface1 where
  Locked : Bool
  id : Nat
deriving DecidableEq

/-- Result of one `DecodeFrameAsync` submission: the returned
`mfxStatus`, whether a sync point (completion token) was produced, and
how many bitstream bytes the engine consumed through the pointer. -/
structure SubmitResult where
  sts : Int
  syncp : Bool
  consumed : Nat
deriving DecidableEq

/-- Observable actions of one decoder call, in order. -/
inductive Event where
  | submit (surfLocked : Bool) (surfId : Nat) (off len : Nat)
  | sleep (ms : Nat)
  | syncOp
  | deliver (ts : Nat)
  | close
deriving DecidableEq

def Event.isSubmit : Event → Bool
  | .submit _ _ _ _ => true
  | _ => false

def Event.isSleep : Event → Bool
  | .sleep _ => true
  | _ => false

/-- The `while (true)` submit loop of `Decode` (lines 210-218): call
`DecodeFrameAsync(&bitstream_, &*surface, &out_surface, &syncp)`; on
`MFX_WRN_DEVICE_BUSY` sleep 1 ms and resubmit the same arguments;
otherwise exit with the status.  The engine is an oracle indexed by the
attempt number; `fuel` bounds the unbounded C++ loop, `none` meaning it
did not exit within `fuel` attempts. -/
def submitLoop (engine : Nat → SubmitResult) (surf : mfxFrameSurface1)
    (off len : Nat) : Nat → Nat → Option (SubmitResult × List Event)
  | 0, _ => none
  | fuel + 1, k =>
    let r := engine k
    if r.sts = MFX_WRN_DEVICE_BUSY then
      match submitLoop engine surf off len fuel (k + 1) with
      | none => none
      | some (r2, evs) =>
          some (r2, Event.submit surf.Locked surf.id off len :: Event.sleep 1 :: evs)
    else
      some (r, [Event.submit surf.Locked surf.id off len])

/-! ## Decoder state and `Decode` -/

/-- `MsdkVideoDecoderImpl` state: whether `decoder_` is non-null,
whether `decode_complete_callback_` is registered, the accumulator, the
surface pool, and whether `buffer_pool_` still holds buffers. -/
structure DecoderState where
  decoder_ : Bool
  decode_complete_callback_ : Bool
  bitstream_ : Bitstream
  surfaces_ : List mfxFrameSurface1
  buffer_pool_ : Bool

/-- `MsdkVideoDecoderImpl::Decode` (lines 157-251).  `engine` is the
per-attempt `DecodeFrameAsync` oracle for this call, `syncSts` the
status `MFXVideoCORE_SyncOperation` would return, `fuel` the bound on
the busy-retry loop.  Returns `none` when the C++ loop would not have
exited within `fuel` attempts, otherwise the WebRTC return code, the
post-call state and the event trace.

The check after the loop follows the source order: `MFX_ERR_MORE_DATA`
first, then `!syncp`, then the status check.  `MSDK_CHECK_RESULT`
(msdk_utils.h, not part of this excerpt) is modelled from the spec:
any other non-zero status is propagated to the caller. -/
def Decode (fuel : Nat) (engine : Nat → SubmitResult) (syncSts : Int)
    (st : DecoderState) (img : EncodedImage) :
    Option (Int × DecoderState × List Event) :=
  if st.decoder_ = false then
    some (WEBRTC_VIDEO_CODEC_UNINITIALIZED, st, [])
  else if st.decode_complete_callback_ = false then
    some (WEBRTC_VIDEO_CODEC_UNINITIALIZED, st, [])
  else if img.isNull = true ∧ 0 < img.size then
    some (WEBRTC_VIDEO_CODEC_ERR_PARAMETER, st, [])
  else
    let bs := appendStep st.bitstream_ img
    let st1 := { st with bitstream_ := bs }
    match st1.surfaces_.find? (fun s => !s.Locked) with
    | none => some (WEBRTC_VIDEO_CODEC_ERROR, st1, [])
    | some surf =>
      match submitLoop engine surf bs.DataOffset bs.DataLength fuel 0 with
      | none => none
      | some (r, evs) =>
        let st2 := { st1 with bitstream_ := consume bs r.consumed }
        if r.sts = MFX_ERR_MORE_DATA then
          some (WEBRTC_VIDEO_CODEC_OK, st2, evs)
        else if r.syncp = false then
          some (WEBRTC_VIDEO_CODEC_OK, st2, evs)
        else if r.sts ≠ MFX_ERR_NONE then
          some (r.sts, st2, evs)
        else if syncSts ≠ MFX_ERR_NONE then
          some (syncSts, st2, evs ++ [Event.syncOp])
        else
          some (WEBRTC_VIDEO_CODEC_OK, st2,
            evs ++ [Event.syncOp, Event.deliver img.timestamp])

/-! ## Release -/

/-- `MsdkVideoDecoderImpl::ReleaseMediaSDK` (lines 321-326): close the
decoder if non-null, then reset the pointer. -/
def ReleaseMediaSDK (st : DecoderState) : DecoderState × List Event :=
  ({ st with decoder_ := false },
   if st.decoder_ then [Event.close] else [])

/-- `MsdkVideoDecoderImpl::Release` (lines 259-263): `ReleaseMediaSDK`
then `buffer_pool_.Release()`, always returning OK. -/
def Release (st : DecoderState) : Int × DecoderState × List Event :=
  let p := ReleaseMediaSDK st
  (WEBRTC_VIDEO_CODEC_OK, { p.1 with buffer_pool_ := false }, p.2)

/-! ## Decoder creation, capability probing, configuration -/

/-- `mfxVideoParam` fields set by `CreateDecoder` (lines 93-109). -/
structure mfxVideoParam where
  CodecId : Nat
  CropW : Nat
  CropH : Nat
  Width : Nat
  Height : Nat
  AsyncDepth : Nat
deriving DecidableEq

/-- Parameter descriptor built by `CreateDecoder`: crop = requested
size, padded size rounded up to a multiple of 16, single-frame depth. -/
def buildParam (codec width height : Nat) : mfxVideoParam :=
  { CodecId := codec, CropW := width, CropH := height,
    Width := (width + 15) / 16 * 16, Height := (height + 15) / 16 * 16,
    AsyncDepth := 1 }

/-- The engine side of `MFXVideoDECODE`: statuses of `Query` (pure
validation) and `Init` (stateful session commit). -/
structure DecodeEngine where
  Query : mfxVideoParam → Int
  Init : mfxVideoParam → Int

/-- Engine calls made during decoder creation. -/
inductive CEvent where
  | query
  | init
deriving DecidableEq

/-- `MsdkVideoDecoderImpl::CreateDecoder` (lines 82-147): build the
parameter descriptor, `Query` it; a negative status returns `nullptr`
(`none`).  Only when `init` is true is the stateful `Init` performed,
whose failure also returns `nullptr`. -/
def CreateDecoder (eng : DecodeEngine) (codec width height : Nat)
    (init : Bool) : Option Unit × List CEvent :=
  let param := buildParam codec width height
  let sts := eng.Query param
  if sts < 0 then
    (none, [CEvent.query])
  else if init then
    if eng.Init param ≠ MFX_ERR_NONE then
      (none, [CEvent.query, CEvent.init])
    else
      (some (), [CEvent.query, CEvent.init])
  else
    (some (), [CEvent.query])

/-- `MsdkVideoDecoder::IsSupported` (lines 332-345): null session gives
false, otherwise create a decoder at 640x480 with `init = false` and
report whether creation succeeded. -/
def IsSupported (sessionNonNull : Bool) (eng : DecodeEngine) (codec : Nat) :
    Bool × List CEvent :=
  if sessionNonNull = false then
    (false, [])
  else
    let p := CreateDecoder eng codec 640 480 false
    (p.1.isSome, p.2)

/-- `MsdkVideoDecoderImpl::InitMediaSDK` (lines 269-319):
`decoder_ = CreateDecoder(..., true)` and then, with no null check,
`decoder_->GetVideoParam(&param)` — when creation failed this
dereferences a null pointer, modelled as `none` (undefined behavior).
`getVideoParamSts` and `queryIOSurfSts` are the statuses the engine
returns from `GetVideoParam` / `QueryIOSurf`; `MSDK_CHECK_RESULT` on
the latter (msdk_utils.h, not part of this excerpt) is modelled from
the spec: an initialization failure reports false. -/
def InitMediaSDK (eng : DecodeEngine) (getVideoParamSts queryIOSurfSts : Int)
    (codec width height : Nat) : Option Bool :=
  match (CreateDecoder eng codec width height true).1 with
  | none => none
  | some _ =>
    if getVideoParamSts ≠ MFX_ERR_NONE then some false
    else if queryIOSurfSts ≠ MFX_ERR_NONE then some false
    else some true

/-- `MsdkVideoDecoderImpl::Configure` (lines 149-155): record the
resolution and run `InitMediaSDK`. -/
def Configure (eng : DecodeEngine) (getVideoParamSts queryIOSurfSts : Int)
    (codec maxWidth maxHeight : Nat) : Option Bool :=
  InitMediaSDK eng getVideoParamSts queryIOSurfSts codec maxWidth maxHeight

/-! ## Concrete fixtures used by witnesses and counterexamples -/

/-- A chunk of `n` zero bytes with a non-null data pointer. -/
def chunk (n : Nat) : EncodedImage := ⟨false, n, fun _ => 0, 0⟩

/-- Accumulator state after the first append (engine consumed 0 bytes,
i.e. `MFX_ERR_MORE_DATA`): a 2000000-byte chunk into the fresh 1 MiB
buffer. -/
def growState1 : Bitstream := appendStep initBitstream (chunk 2000000)

/-- After the second append (200000 bytes, nothing consumed). -/
def growState2 : Bitstream := appendStep (consume growState1 0) (chunk 200000)

/-- After the third append (1000000 bytes, nothing consumed). -/
def growState3 : Bitstream := appendStep (consume growState2 0) (chunk 1000000)

/-- A single free surface. -/
def sampleSurface : mfxFrameSurface1 := ⟨false, 0⟩

/-- A configured decoder with a registered callback and one free
surface. -/
def sampleState : DecoderState :=
  { decoder_ := true, decode_complete_callback_ := true,
    bitstream_ := initBitstream, surfaces_ := [sampleSurface],
    buffer_pool_ := true }

/-- A decoder state whose `decoder_` is still null. -/
def uninitState : DecoderState :=
  { decoder_ := false, decode_complete_callback_ := false,
    bitstream_ := initBitstream, surfaces_ := [], buffer_pool_ := false }

/-- A configured decoder whose only surface is locked by the engine. -/
def allLockedState : DecoderState :=
  { decoder_ := true, decode_complete_callback_ := true,
    bitstream_ := initBitstream, surfaces_ := [⟨true, 0⟩, ⟨true, 1⟩],
    buffer_pool_ := true }

/-- An engine that reports `MFX_WRN_DEVICE_BUSY` on the first five
attempts and then succeeds without a sync point. -/
def busyEngine : Nat → SubmitResult := fun k =>
  if k < 5 then ⟨MFX_WRN_DEVICE_BUSY, false, 0⟩ else ⟨MFX_ERR_NONE, false, 0⟩

/-- An engine that fails fatally (`MFX_ERR_DEVICE_FAILED`) producing no
sync point. -/
def failingEngine : Nat → SubmitResult := fun _ =>
  ⟨MFX_ERR_DEVICE_FAILED, false, 0⟩

/-- An engine that always asks for more data, consuming nothing. -/
def moreDataEngine : Nat → SubmitResult := fun _ =>
  ⟨MFX_ERR_MORE_DATA, false, 0⟩

/-- A creation engine whose `Query` rejects every parameter set with
`MFX_ERR_UNSUPPORTED`. -/
def rejectingEngine : DecodeEngine :=
  { Query := fun _ => MFX_ERR_UNSUPPORTED, Init := fun _ => MFX_ERR_NONE }

/-- Event trace of a submit loop that saw `n` busy attempts before
exiting: `n` times (submit, 1 ms sleep), then the final submit. -/
def busyTrace : Nat → mfxFrameSurface1 → Nat → Nat → List Event
  | 0, surf, off, len => [Event.submit surf.Locked surf.id off len]
  | n + 1, surf, off, len =>
      Event.submit surf.Locked surf.id off len :: Event.sleep 1 ::
        busyTrace n surf off len

/-! ## Accumulator lemmas -/

theorem view_length (bs : Bitstream) : (view bs).length = bs.DataLength := by
  simp [view]

theorem appendStep_DataOffset (bs : Bitstream) (img : EncodedImage) :
    (appendStep bs img).DataOffset = 0 := by
  simp [appendStep]

theorem appendStep_DataLength (bs : Bitstream) (img : EncodedImage) :
    (appendStep bs img).DataLength = bs.DataLength + img.size := by
  simp only [appendStep]
  split <;> rfl

theorem appendStep_view (bs : Bitstream) (img : EncodedImage) :
    view (appendStep bs img) = view bs ++ imgBytes img := by
  have hL : (appendStep bs img).DataLength = bs.DataLength + img.size :=
    appendStep_DataLength bs img
  apply List.ext_getElem
  · simp [view, imgBytes, appendStep]
    split <;> simp
  · intro i h1 h2
    simp only [view, List.getElem_map, List.getElem_range, appendStep_DataOffset,
      Nat.zero_add]
    have hi : i < bs.DataLength + img.size := by
      simpa [view, hL] using h1
    by_cases hcase : i < bs.DataLength
    · have hmem : (appendStep bs img).mem i = bs.mem (bs.DataOffset + i) := by
        simp only [appendStep]
        split <;> simp [Nat.not_le.mpr hcase, hcase]
      rw [hmem]
      rw [List.getElem_append_left (by simpa [view] using hcase)]
      simp [view]
    · have hge : bs.DataLength ≤ i := Nat.not_lt.mp hcase
      have hmem : (appendStep bs img).mem i = img.byteAt (i - bs.DataLength) := by
        simp only [appendStep]
        split <;> simp [hge, hi]
      rw [hmem]
      rw [List.getElem_append_right (by simpa [view] using hcase)]
      simp [view, imgBytes]

theorem consume_view (bs : Bitstream) (c : Nat) :
    view (consume bs c) = (view bs).drop c := by
  apply List.ext_getElem
  · simp [view, consume]
  · intro i h1 h2
    simp only [view, consume, List.getElem_drop, List.getElem_map,
      List.getElem_range]
    ring_nf

/-! ## Submit-loop lemmas -/

theorem submitLoop_events (engine : Nat → SubmitResult) (surf : mfxFrameSurface1)
    (off len : Nat) :
    ∀ fuel k r evs, submitLoop engine surf off len fuel k = some (r, evs) →
      ∀ e ∈ evs, e = Event.submit surf.Locked surf.id off len ∨ e = Event.sleep 1 := by
  intro fuel
  induction fuel with
  | zero => intro k r evs h; simp [submitLoop] at h
  | succ n ih =>
    intro k r evs h e he
    simp only [submitLoop] at h
    split at h
    · cases hrec : submitLoop engine surf off len n (k + 1) with
      | none => rw [hrec] at h; simp at h
      | some p =>
        rw [hrec] at h
        obtain ⟨r2, evs2⟩ := p
        simp only [Option.some.injEq, Prod.mk.injEq] at h
        obtain ⟨hr, hevs⟩ := h
        subst hevs
        simp only [List.mem_cons] at he
        rcases he with he | he | he
        · exact Or.inl he
        · exact Or.inr he
        · exact ih (k + 1) r2 evs2 hrec e he
    · simp only [Option.some.injEq, Prod.mk.injEq] at h
      obtain ⟨hr, hevs⟩ := h
      subst hevs
      simp at he
      exact Or.inl he

theorem submitLoop_busy (engine : Nat → SubmitResult) (surf : mfxFrameSurface1)
    (off len : Nat) (N : Nat) :
    ∀ k, (∀ j, j < N → (engine (k + j)).sts = MFX_WRN_DEVICE_BUSY) →
      (engine (k + N)).sts ≠ MFX_WRN_DEVICE_BUSY →
      submitLoop engine surf off len (N + 1) k =
        some (engine (k + N), busyTrace N surf off len) := by
  induction N with
  | zero =>
    intro k _ hs
    have hs' : ¬((engine k).sts = MFX_WRN_DEVICE_BUSY) := by simpa using hs
    simp only [submitLoop, busyTrace]
    rw [if_neg hs']
    simp
  | succ n ih =>
    intro k hb hs
    have hb0 : (engine k).sts = MFX_WRN_DEVICE_BUSY := by
      simpa using hb 0 (Nat.succ_pos n)
    have hrec : submitLoop engine surf off len (n + 1) (k + 1) =
        some (engine (k + 1 + n), busyTrace n surf off len) := by
      apply ih
      · intro j hj
        have hcl := hb (j + 1) (by omega)
        have e : k + (j + 1) = k + 1 + j := by omega
        rw [e] at hcl
        exact hcl
      · have e : k + 1 + n = k + (n + 1) := by omega
        rw [e]; exact hs
    have e2 : k + 1 + n = k + (n + 1) := by omega
    rw [e2] at hrec
    simp only [submitLoop] at hrec ⊢
    rw [if_pos hb0, hrec]
    rfl

theorem busyTrace_filter_sleep (N : Nat) (surf : mfxFrameSurface1) (off len : Nat) :
    (busyTrace N surf off len).filter Event.isSleep = List.replicate N (Event.sleep 1) := by
  induction N with
  | zero => simp [busyTrace, Event.isSleep]
  | succ n ih => simp [busyTrace, Event.isSleep, List.replicate_succ, ih]

theorem busyTrace_filter_submit (N : Nat) (surf : mfxFrameSurface1) (off len : Nat) :
    (busyTrace N surf off len).filter Event.isSubmit =
      List.replicate (N + 1) (Event.submit surf.Locked surf.id off len) := by
  induction N with
  | zero => simp [busyTrace, Event.isSubmit]
  | succ n ih => simp [busyTrace, Event.isSubmit, List.replicate_succ, ih]

/-- After the precondition checks pass, a free surface is found and the
submit loop exits with result `r` and trace `evs`, `Decode` dispatches
on `r` exactly as the post-loop source does. -/
theorem Decode_dispatch (fuel : Nat) (engine : Nat → SubmitResult) (syncSts : Int)
    (st : DecoderState) (img : EncodedImage) (surf : mfxFrameSurface1)
    (r : SubmitResult) (evs : List Event)
    (h1 : st.decoder_ = true) (h2 : st.decode_complete_callback_ = true)
    (h3 : ¬(img.isNull = true ∧ 0 < img.size))
    (h4 : st.surfaces_.find? (fun s => !s.Locked) = some surf)
    (h5 : submitLoop engine surf (appendStep st.bitstream_ img).DataOffset
            (appendStep st.bitstream_ img).DataLength fuel 0 = some (r, evs)) :
    Decode fuel engine syncSts st img =
      (if r.sts = MFX_ERR_MORE_DATA then
        some (WEBRTC_VIDEO_CODEC_OK,
          { st with bitstream_ := consume (appendStep st.bitstream_ img) r.consumed }, evs)
      else if r.syncp = false then
        some (WEBRTC_VIDEO_CODEC_OK,
          { st with bitstream_ := consume (appendStep st.bitstream_ img) r.consumed }, evs)
      else if r.sts ≠ MFX_ERR_NONE then
        some (r.sts,
          { st with bitstream_ := consume (appendStep st.bitstream_ img) r.consumed }, evs)
      else if syncSts ≠ MFX_ERR_NONE then
        some (syncSts,
          { st with bitstream_ := consume (appendStep st.bitstream_ img) r.consumed },
          evs ++ [Event.syncOp])
      else
        some (WEBRTC_VIDEO_CODEC_OK,
          { st with bitstream_ := consume (appendStep st.bitstream_ img) r.consumed },
          evs ++ [Event.syncOp, Event.deliver img.timestamp])) := by
  simp only [Decode, h1, h2, Bool.true_eq_false, if_false, if_neg h3]
  rw [show ({ st with bitstream_ := appendStep st.bitstream_ img } : DecoderState).surfaces_
        = st.surfaces_ from rfl]
  simp only [h4, h5]

/-! ## Claim theorems -/

theorem appendStep_bufSize (bs : Bitstream) (img : EncodedImage) :
    (appendStep bs img).bufSize =
      if bs.MaxLength < bs.DataLength + img.size
      then bs.DataLength + img.size else bs.bufSize := by
  simp only [appendStep]
  split <;> rfl

theorem appendStep_MaxLength (bs : Bitstream) (img : EncodedImage) :
    (appendStep bs img).MaxLength =
      if bs.MaxLength < bs.DataLength + img.size
      then bs.DataLength + (bs.DataLength + img.size) else bs.MaxLength := by
  simp only [appendStep]
  split <;> rfl

/-- C1: refuted on the code (code bug).  The growth step resizes the
backing buffer to `DataLength + size` but then records
`MaxLength = DataLength + bitstream_buffer_.size()` (lines 171-172),
double-counting `DataLength`.  Starting from the fresh 1 MiB buffer and
appending chunks of 2000000, 200000 and 1000000 bytes with the engine
consuming nothing, after the second append the recorded capacity
`MaxLength` (4200000) exceeds the actual allocation (2200000), and the
third append leaves `DataOffset + DataLength` (3200000) beyond the
allocation — its memcpy wrote past the end of the buffer. -/
theorem c1_growth_overflows_allocation :
    growState2.bufSize < growState2.MaxLength ∧
    growState3.bufSize < growState3.DataOffset + growState3.DataLength := by
  have hc : ∀ n : Nat, (chunk n).size = n := fun _ => rfl
  have l1 : growState1.DataLength = 2000000 := by
    rw [growState1, appendStep_DataLength, hc]
    norm_num [initBitstream]
  have m1 : growState1.MaxLength = 2000000 := by
    rw [growState1, appendStep_MaxLength, hc]
    norm_num [initBitstream]
  have l2 : growState2.DataLength = 2200000 := by
    rw [growState2, appendStep_DataLength, hc]
    norm_num [consume, l1]
  have m2 : growState2.MaxLength = 4200000 := by
    rw [growState2, appendStep_MaxLength, hc]
    norm_num [consume, l1, m1]
  have b2 : growState2.bufSize = 2200000 := by
    rw [growState2, appendStep_bufSize, hc]
    norm_num [consume, l1, m1]
  have b3 : growState3.bufSize = 2200000 := by
    rw [growState3, appendStep_bufSize, hc]
    norm_num [consume, l2, m2, b2]
  have l3 : growState3.DataLength = 3200000 := by
    rw [growState3, appendStep_DataLength, hc]
    norm_num [consume, l2]
  have o3 : growState3.DataOffset = 0 := appendStep_DataOffset _ _
  refine ⟨?_, ?_⟩
  · rw [b2, m2]; norm_num
  · rw [b3, o3, l3]; norm_num

/-- C3: the append step compacts the unconsumed region to the front
(`DataOffset = 0`) and the next submission's bitstream view is exactly
the previously unconsumed bytes followed by the new chunk's bytes, in
order; consumption by the engine drops exactly the consumed prefix from
the view, so the view always begins at the first unconsumed byte. -/
theorem c3_accumulation_correctness (bs : Bitstream) (img : EncodedImage) (c : Nat) :
    (appendStep bs img).DataOffset = 0 ∧
    view (appendStep bs img) = view bs ++ imgBytes img ∧
    view (consume bs c) = (view bs).drop c :=
  ⟨appendStep_DataOffset bs img, appendStep_view bs img, consume_view bs c⟩

theorem c3_accumulation_correctness_witness :
    (appendStep initBitstream (chunk 2)).DataOffset = 0 ∧
    view (appendStep initBitstream (chunk 2)) = view initBitstream ++ imgBytes (chunk 2) ∧
    view (consume initBitstream 1) = (view initBitstream).drop 1 :=
  c3_accumulation_correctness initBitstream (chunk 2) 1

/-- C7: `Release` always returns OK, closes and resets the decoder
session and releases the buffer pool, and is idempotent: a second
`Release` also returns OK and leaves exactly the state the first one
left. -/
theorem c7_release_idempotent (st : DecoderState) :
    (Release st).1 = WEBRTC_VIDEO_CODEC_OK ∧
    (Release st).2.1.decoder_ = false ∧
    (Release st).2.1.buffer_pool_ = false ∧
    (Release ((Release st).2.1)).1 = WEBRTC_VIDEO_CODEC_OK ∧
    (Release ((Release st).2.1)).2.1 = (Release st).2.1 :=
  ⟨rfl, rfl, rfl, rfl, rfl⟩

theorem c7_release_idempotent_witness :
    (Release sampleState).1 = WEBRTC_VIDEO_CODEC_OK ∧
    (Release sampleState).2.1.decoder_ = false ∧
    (Release sampleState).2.1.buffer_pool_ = false ∧
    (Release ((Release sampleState).2.1)).1 = WEBRTC_VIDEO_CODEC_OK ∧
    (Release ((Release sampleState).2.1)).2.1 = (Release sampleState).2.1 :=
  c7_release_idempotent sampleState

/-- C9: `Decode` fails immediately with UNINITIALIZED when the decoder
session is not initialized or no callback is registered, and with
ERR_PARAMETER when the data pointer is null but the declared size is
nonzero; in every such case the state is returned unchanged and no
engine interaction (no event) occurs. -/
theorem c9_contract_checks (fuel : Nat) (engine : Nat → SubmitResult)
    (syncSts : Int) (st : DecoderState) (img : EncodedImage) :
    (st.decoder_ = false →
      Decode fuel engine syncSts st img =
        some (WEBRTC_VIDEO_CODEC_UNINITIALIZED, st, [])) ∧
    (st.decode_complete_callback_ = false →
      Decode fuel engine syncSts st img =
        some (WEBRTC_VIDEO_CODEC_UNINITIALIZED, st, [])) ∧
    (st.decoder_ = true → st.decode_complete_callback_ = true →
      img.isNull = true → 0 < img.size →
      Decode fuel engine syncSts st img =
        some (WEBRTC_VIDEO_CODEC_ERR_PARAMETER, st, [])) := by
  refine ⟨?_, ?_, ?_⟩
  · intro h
    simp [Decode, h]
  · intro h
    by_cases hd : st.decoder_ = false
    · simp [Decode, hd]
    · simp [Decode, hd, h]
  · intro h1 h2 h3 h4
    simp [Decode, h1, h2, h3, h4]

theorem c9_contract_checks_witness :
    Decode 1 moreDataEngine MFX_ERR_NONE uninitState (chunk 1) =
      some (WEBRTC_VIDEO_CODEC_UNINITIALIZED, uninitState, []) ∧
    Decode 1 moreDataEngine MFX_ERR_NONE
        { sampleState with decode_complete_callback_ := false } (chunk 1) =
      some (WEBRTC_VIDEO_CODEC_UNINITIALIZED,
        { sampleState with decode_complete_callback_ := false }, []) ∧
    Decode 1 moreDataEngine MFX_ERR_NONE sampleState ⟨true, 1, fun _ => 7, 0⟩ =
      some (WEBRTC_VIDEO_CODEC_ERR_PARAMETER, sampleState, []) :=
  ⟨(c9_contract_checks 1 moreDataEngine MFX_ERR_NONE uninitState (chunk 1)).1 rfl,
   (c9_contract_checks 1 moreDataEngine MFX_ERR_NONE
      { sampleState with decode_complete_callback_ := false } (chunk 1)).2.1 rfl,
   (c9_contract_checks 1 moreDataEngine MFX_ERR_NONE sampleState
      ⟨true, 1, fun _ => 7, 0⟩).2.2 rfl rfl rfl (by decide)⟩

/-- C2: refuted as stated (corrected).  The source checks `!syncp`
(line 225) before the status check (line 228), so a fatal submit status
that comes without a completion token — the normal engine behavior for
errors — is silently mapped to OK instead of being propagated: with the
engine returning `MFX_ERR_DEVICE_FAILED` and no sync point, `Decode`
returns `WEBRTC_VIDEO_CODEC_OK`. -/
theorem c2_error_swallowed_counterexample :
    (Decode 1 failingEngine MFX_ERR_NONE sampleState (chunk 1)).map
        (fun r => r.1) = some WEBRTC_VIDEO_CODEC_OK ∧
    MFX_ERR_DEVICE_FAILED ≠ MFX_ERR_NONE ∧
    MFX_ERR_DEVICE_FAILED ≠ MFX_ERR_MORE_DATA ∧
    WEBRTC_VIDEO_CODEC_OK ≠ MFX_ERR_DEVICE_FAILED := by
  refine ⟨rfl, by decide, by decide, by decide⟩

/-- C2 (amended): after the submit loop, `MFX_ERR_MORE_DATA` returns OK
with the unconsumed bitstream retained for the next chunk; any result
without a completion token — even a fatal status — returns OK; a
non-zero status is propagated as the return code only when a completion
token is present; and a failing synchronize status is propagated. -/
theorem c2_post_loop_dispatch (fuel : Nat) (engine : Nat → SubmitResult)
    (syncSts : Int) (st : DecoderState) (img : EncodedImage)
    (surf : mfxFrameSurface1) (r : SubmitResult) (evs : List Event)
    (h1 : st.decoder_ = true) (h2 : st.decode_complete_callback_ = true)
    (h3 : ¬(img.isNull = true ∧ 0 < img.size))
    (h4 : st.surfaces_.find? (fun s => !s.Locked) = some surf)
    (h5 : submitLoop engine surf (appendStep st.bitstream_ img).DataOffset
            (appendStep st.bitstream_ img).DataLength fuel 0 = some (r, evs)) :
    (r.sts = MFX_ERR_MORE_DATA →
      Decode fuel engine syncSts st img =
        some (WEBRTC_VIDEO_CODEC_OK,
          { st with bitstream_ := consume (appendStep st.bitstream_ img) r.consumed },
          evs)) ∧
    (r.syncp = false → r.sts ≠ MFX_ERR_MORE_DATA →
      Decode fuel engine syncSts st img =
        some (WEBRTC_VIDEO_CODEC_OK,
          { st with bitstream_ := consume (appendStep st.bitstream_ img) r.consumed },
          evs)) ∧
    (r.syncp = true → r.sts ≠ MFX_ERR_MORE_DATA → r.sts ≠ MFX_ERR_NONE →
      Decode fuel engine syncSts st img =
        some (r.sts,
          { st with bitstream_ := consume (appendStep st.bitstream_ img) r.consumed },
          evs)) ∧
    (r.syncp = true → r.sts = MFX_ERR_NONE → syncSts ≠ MFX_ERR_NONE →
      Decode fuel engine syncSts st img =
        some (syncSts,
          { st with bitstream_ := consume (appendStep st.bitstream_ img) r.consumed },
          evs ++ [Event.syncOp])) := by
  have hd := Decode_dispatch fuel engine syncSts st img surf r evs h1 h2 h3 h4 h5
  refine ⟨?_, ?_, ?_, ?_⟩ <;> intros <;> rw [hd] <;> (simp [*]; try decide)

theorem c2_post_loop_dispatch_witness :
    Decode 1 moreDataEngine MFX_ERR_NONE sampleState (chunk 1) =
      some (WEBRTC_VIDEO_CODEC_OK,
        { sampleState with
            bitstream_ := consume (appendStep sampleState.bitstream_ (chunk 1)) 0 },
        [Event.submit false 0 0 1]) :=
  (c2_post_loop_dispatch 1 moreDataEngine MFX_ERR_NONE sampleState (chunk 1)
    sampleSurface ⟨MFX_ERR_MORE_DATA, false, 0⟩ [Event.submit false 0 0 1]
    rfl rfl (by decide) rfl rfl).1 rfl

/-- C4: refuted on the code (code bug).  When the engine rejects the
requested codec, `CreateDecoder` returns null, and `InitMediaSDK`
dereferences the null `decoder_` at `decoder_->GetVideoParam(&param)`
(line 276, no null check) — modelled as `none` — so `Configure` hits
undefined behavior (crash) instead of returning false. -/
theorem c4_configure_null_deref :
    Configure rejectingEngine MFX_ERR_NONE MFX_ERR_NONE 1 640 480 = none ∧
    ∀ b : Bool, Configure rejectingEngine MFX_ERR_NONE MFX_ERR_NONE 1 640 480 ≠ some b := by
  have h0 : Configure rejectingEngine MFX_ERR_NONE MFX_ERR_NONE 1 640 480 = none := rfl
  refine ⟨h0, ?_⟩
  intro b hb
  rw [h0] at hb
  exact Option.noConfusion hb

/-- C8: for a codec the engine rejects at negotiation (`Query` returns
a negative status), `IsSupported` returns false, and capability probing
never performs the stateful `Init` (only the side-effect-free `Query`
runs), for any session and codec. -/
theorem c8_unsupported_probe (eng : DecodeEngine) (codec : Nat)
    (hrej : eng.Query (buildParam codec 640 480) < 0) :
    IsSupported true eng codec = (false, [CEvent.query]) ∧
    ∀ (sessionNonNull : Bool) (c : Nat),
      CEvent.init ∉ (IsSupported sessionNonNull eng c).2 := by
  constructor
  · simp [IsSupported, CreateDecoder, hrej]
  · intro s c
    cases s
    · simp [IsSupported]
    · by_cases hq : eng.Query (buildParam c 640 480) < 0
      · simp [IsSupported, CreateDecoder, hq]
      · simp [IsSupported, CreateDecoder, hq]

theorem c8_unsupported_probe_witness :
    IsSupported true rejectingEngine 5 = (false, [CEvent.query]) ∧
    ∀ (s : Bool) (c : Nat), CEvent.init ∉ (IsSupported s rejectingEngine c).2 :=
  c8_unsupported_probe rejectingEngine 5 (by decide)

/-- C5: busy-retry convergence.  If the engine reports DEVICE_BUSY on
the first `N` submissions and succeeds on the `(N+1)`-th, `Decode`
sleeps 1 ms after each busy attempt, resubmits the identical bitstream
view (offset 0, full accumulated length) and surface every time, never
surfaces the busy status, and returns OK for the call. -/
theorem c5_busy_retry_convergence (N : Nat) (engine : Nat → SubmitResult)
    (st : DecoderState) (img : EncodedImage) (surf : mfxFrameSurface1)
    (h1 : st.decoder_ = true) (h2 : st.decode_complete_callback_ = true)
    (h3 : ¬(img.isNull = true ∧ 0 < img.size))
    (h4 : st.surfaces_.find? (fun s => !s.Locked) = some surf)
    (hb : ∀ j, j < N → (engine j).sts = MFX_WRN_DEVICE_BUSY)
    (hs : (engine N).sts = MFX_ERR_NONE) :
    ∃ st2 evs, Decode (N + 1) engine MFX_ERR_NONE st img =
        some (WEBRTC_VIDEO_CODEC_OK, st2, evs) ∧
      List.filter Event.isSleep evs = List.replicate N (Event.sleep 1) ∧
      List.filter Event.isSubmit evs =
        List.replicate (N + 1)
          (Event.submit surf.Locked surf.id 0
            (appendStep st.bitstream_ img).DataLength) := by
  have hoff : (appendStep st.bitstream_ img).DataOffset = 0 :=
    appendStep_DataOffset st.bitstream_ img
  have hloop : submitLoop engine surf 0 (appendStep st.bitstream_ img).DataLength
      (N + 1) 0 =
      some (engine N, busyTrace N surf 0 (appendStep st.bitstream_ img).DataLength) := by
    have hzb : ∀ j, j < N → (engine (0 + j)).sts = MFX_WRN_DEVICE_BUSY := by
      intro j hj
      rw [Nat.zero_add]
      exact hb j hj
    have hzs : (engine (0 + N)).sts ≠ MFX_WRN_DEVICE_BUSY := by
      rw [Nat.zero_add, hs]
      decide
    have := submitLoop_busy engine surf 0
      (appendStep st.bitstream_ img).DataLength N 0 hzb hzs
    rwa [Nat.zero_add] at this
  have hd := Decode_dispatch (N + 1) engine MFX_ERR_NONE st img surf (engine N)
    (busyTrace N surf 0 (appendStep st.bitstream_ img).DataLength) h1 h2 h3 h4
    (by rw [hoff]; exact hloop)
  rw [hd]
  have hmd : ¬((engine N).sts = MFX_ERR_MORE_DATA) := by
    rw [hs]; decide
  rw [if_neg hmd]
  by_cases hsp : (engine N).syncp = false
  · rw [if_pos hsp]
    exact ⟨_, _, rfl, busyTrace_filter_sleep _ _ _ _, busyTrace_filter_submit _ _ _ _⟩
  · rw [if_neg hsp]
    have h0 : ¬((engine N).sts ≠ MFX_ERR_NONE) := by
      rw [hs]; simp
    rw [if_neg h0]
    have h00 : ¬(MFX_ERR_NONE ≠ MFX_ERR_NONE) := by simp
    rw [if_neg h00]
    refine ⟨_, _, rfl, ?_, ?_⟩
    · simp [List.filter_append, Event.isSleep, busyTrace_filter_sleep]
    · simp [List.filter_append, Event.isSubmit, busyTrace_filter_submit]

theorem c5_busy_retry_witness :
    ∃ st2 evs, Decode 6 busyEngine MFX_ERR_NONE sampleState (chunk 1) =
        some (WEBRTC_VIDEO_CODEC_OK, st2, evs) ∧
      List.filter Event.isSleep evs = List.replicate 5 (Event.sleep 1) ∧
      List.filter Event.isSubmit evs =
        List.replicate 6
          (Event.submit sampleSurface.Locked sampleSurface.id 0
            (appendStep sampleState.bitstream_ (chunk 1)).DataLength) :=
  c5_busy_retry_convergence 5 busyEngine sampleState (chunk 1) sampleSurface
    rfl rfl (by decide) rfl
    (fun j hj => by simp [busyEngine, hj])
    (by simp [busyEngine])

/-- C6: the surface handed to the engine is the first pool surface with
`Locked == false` (`std::find_if`), so no `Decode` run ever submits a
locked surface; and when every pool surface is locked, `Decode` returns
`WEBRTC_VIDEO_CODEC_ERROR` immediately with no submission, no sleep and
no retry (empty event trace). -/
theorem c6_pool_mutual_exclusion :
    (∀ fuel engine syncSts st img code st2 evs,
      Decode fuel engine syncSts st img = some (code, st2, evs) →
      ∀ lk sid off len, Event.submit lk sid off len ∈ evs → lk = false) ∧
    (∀ fuel engine syncSts (st : DecoderState) (img : EncodedImage),
      st.decoder_ = true → st.decode_complete_callback_ = true →
      ¬(img.isNull = true ∧ 0 < img.size) →
      (∀ s ∈ st.surfaces_, s.Locked = true) →
      Decode fuel engine syncSts st img =
        some (WEBRTC_VIDEO_CODEC_ERROR,
          { st with bitstream_ := appendStep st.bitstream_ img }, [])) := by
  constructor
  · intro fuel engine syncSts st img code st2 evs h lk sid off len hmem
    simp only [Decode] at h
    split at h
    · simp only [Option.some.injEq, Prod.mk.injEq] at h
      obtain ⟨-, -, hevs⟩ := h
      rw [← hevs] at hmem
      simp at hmem
    · split at h
      · simp only [Option.some.injEq, Prod.mk.injEq] at h
        obtain ⟨-, -, hevs⟩ := h
        rw [← hevs] at hmem
        simp at hmem
      · split at h
        · simp only [Option.some.injEq, Prod.mk.injEq] at h
          obtain ⟨-, -, hevs⟩ := h
          rw [← hevs] at hmem
          simp at hmem
        · split at h
          · simp only [Option.some.injEq, Prod.mk.injEq] at h
            obtain ⟨-, -, hevs⟩ := h
            rw [← hevs] at hmem
            simp at hmem
          · rename_i surf hfind
            cases hloop : submitLoop engine surf
                (appendStep st.bitstream_ img).DataOffset
                (appendStep st.bitstream_ img).DataLength fuel 0 with
            | none =>
              rw [hloop] at h
              exact Option.noConfusion h
            | some p =>
              obtain ⟨r, evs'⟩ := p
              rw [hloop] at h
              dsimp only at h
              have hlocked : surf.Locked = false := by
                have := List.find?_some hfind
                simpa using this
              have hsub : ∀ e ∈ evs',
                  e = Event.submit surf.Locked surf.id
                    (appendStep st.bitstream_ img).DataOffset
                    (appendStep st.bitstream_ img).DataLength ∨
                  e = Event.sleep 1 :=
                submitLoop_events engine surf _ _ fuel 0 r evs' hloop
              have core : Event.submit lk sid off len ∈ evs' → lk = false := by
                intro hm
                rcases hsub _ hm with he | he
                · rw [hlocked] at he
                  simp only [Event.submit.injEq] at he
                  exact he.1
                · exact Event.noConfusion he
              have hevs : evs = evs' ∨ evs = evs' ++ [Event.syncOp] ∨
                  evs = evs' ++ [Event.syncOp, Event.deliver img.timestamp] := by
                split at h
                · simp only [Option.some.injEq, Prod.mk.injEq] at h
                  exact Or.inl h.2.2.symm
                · split at h
                  · simp only [Option.some.injEq, Prod.mk.injEq] at h
                    exact Or.inl h.2.2.symm
                  · split at h
                    · simp only [Option.some.injEq, Prod.mk.injEq] at h
                      exact Or.inl h.2.2.symm
                    · split at h
                      · simp only [Option.some.injEq, Prod.mk.injEq] at h
                        exact Or.inr (Or.inl h.2.2.symm)
                      · simp only [Option.some.injEq, Prod.mk.injEq] at h
                        exact Or.inr (Or.inr h.2.2.symm)
              rcases hevs with he | he | he
              · rw [he] at hmem
                exact core hmem
              · rw [he] at hmem
                rcases List.mem_append.mp hmem with hm | hm
                · exact core hm
                · simp at hm
              · rw [he] at hmem
                rcases List.mem_append.mp hmem with hm | hm
                · exact core hm
                · simp at hm
  · intro fuel engine syncSts st img h1 h2 h3 hall
    have hnone : st.surfaces_.find? (fun s => !s.Locked) = none := by
      rw [List.find?_eq_none]
      intro x hx
      simp [hall x hx]
    simp only [Decode, h1, h2, Bool.true_eq_false, if_false, if_neg h3]
    rw [show ({ st with bitstream_ := appendStep st.bitstream_ img } : DecoderState).surfaces_
          = st.surfaces_ from rfl, hnone]

theorem c6_pool_mutual_exclusion_witness :
    (false = false) ∧
    Decode 1 moreDataEngine MFX_ERR_NONE allLockedState (chunk 1) =
      some (WEBRTC_VIDEO_CODEC_ERROR,
        { allLockedState with
            bitstream_ := appendStep allLockedState.bitstream_ (chunk 1) }, []) :=
  ⟨c6_pool_mutual_exclusion.1 1 moreDataEngine MFX_ERR_NONE sampleState (chunk 1)
      WEBRTC_VIDEO_CODEC_OK
      { sampleState with
          bitstream_ := consume (appendStep sampleState.bitstream_ (chunk 1)) 0 }
      [Event.submit false 0 0 1] rfl false 0 0 1 (by decide),
   c6_pool_mutual_exclusion.2 1 moreDataEngine MFX_ERR_NONE allLockedState (chunk 1)
      rfl rfl (by decide) (by decide)⟩

/-- C10: an input with a null data pointer and zero declared size is
not rejected: the BAD_PARAMETER check requires a nonzero size, so the
call proceeds through the normal append-and-submit path (compaction,
surface acquisition, engine submission) like an empty flush chunk, and
with a MORE_DATA engine answer returns OK. -/
theorem c10_null_empty_input (engine : Nat → SubmitResult) (syncSts : Int)
    (st : DecoderState) (surf : mfxFrameSurface1) (ts : Nat)
    (h1 : st.decoder_ = true) (h2 : st.decode_complete_callback_ = true)
    (h4 : st.surfaces_.find? (fun s => !s.Locked) = some surf)
    (h5 : (engine 0).sts = MFX_ERR_MORE_DATA) :
    Decode 1 engine syncSts st ⟨true, 0, fun _ => 0, ts⟩ =
      some (WEBRTC_VIDEO_CODEC_OK,
        { st with
            bitstream_ := consume (appendStep st.bitstream_ ⟨true, 0, fun _ => 0, ts⟩)
              (engine 0).consumed },
        [Event.submit surf.Locked surf.id 0
          (appendStep st.bitstream_ ⟨true, 0, fun _ => 0, ts⟩).DataLength]) ∧
    WEBRTC_VIDEO_CODEC_OK ≠ WEBRTC_VIDEO_CODEC_ERR_PARAMETER := by
  have h3 : ¬((⟨true, 0, fun _ => 0, ts⟩ : EncodedImage).isNull = true ∧
      0 < (⟨true, 0, fun _ => 0, ts⟩ : EncodedImage).size) := by simp
  have hnb : ¬((engine 0).sts = MFX_WRN_DEVICE_BUSY) := by
    rw [h5]; decide
  have hloop : submitLoop engine surf
      (appendStep st.bitstream_ ⟨true, 0, fun _ => 0, ts⟩).DataOffset
      (appendStep st.bitstream_ ⟨true, 0, fun _ => 0, ts⟩).DataLength 1 0 =
      some (engine 0, [Event.submit surf.Locked surf.id
        (appendStep st.bitstream_ ⟨true, 0, fun _ => 0, ts⟩).DataOffset
        (appendStep st.bitstream_ ⟨true, 0, fun _ => 0, ts⟩).DataLength]) := by
    simp only [submitLoop]
    rw [if_neg hnb]
  have hd := Decode_dispatch 1 engine syncSts st ⟨true, 0, fun _ => 0, ts⟩ surf
    (engine 0) _ h1 h2 h3 h4 hloop
  rw [appendStep_DataOffset] at hd
  constructor
  · rw [hd, if_pos h5]
  · decide

theorem c10_null_empty_input_witness :
    Decode 1 moreDataEngine MFX_ERR_NONE sampleState ⟨true, 0, fun _ => 0, 7⟩ =
      some (WEBRTC_VIDEO_CODEC_OK,
        { sampleState with
            bitstream_ := consume
              (appendStep sampleState.bitstream_ ⟨true, 0, fun _ => 0, 7⟩) 0 },
        [Event.submit false 0 0 0]) ∧
    WEBRTC_VIDEO_CODEC_OK ≠ WEBRTC_VIDEO_CODEC_ERR_PARAMETER :=
  c10_null_empty_input moreDataEngine MFX_ERR_NONE sampleState sampleSurface 7
    rfl rfl rfl rfl
